import Mathlib

/-!
Verification of the pricing core of the 3D-print price calculator
(`preisrechner.py`).  The only real logic in the repository is the pure
function `compute_cost` together with the rounding helper `round_money`
and the input dataclass `PricingInputs`.  We embed this core over the
rational numbers: every Python float value is modelled exactly as a
rational, float arithmetic as exact rational arithmetic, and Python's
built-in `round` (round-half-to-even, "banker's rounding", to a given
number of decimal digits) as `pyRound` below.
-/

namespace Preisrechner

/-- The dataclass `PricingInputs` (preisrechner.py lines 20-42), with the
same field names and the same default values. -/
structure PricingInputs where
  filament_used_g : ℚ
  print_time_h : ℚ
  filament_eur_per_kg : ℚ := 22
  electricity_eur_per_kwh : ℚ := 1/4
  avg_power_w : ℚ := 80
  depreciation_eur_per_h : ℚ := 1/2
  consumables_ratio : ℚ := 1/20
  labor_hours : ℚ := 1
  labor_rate_eur_per_h : ℚ := 30
  risk_ratio : ℚ := 1/10
  markup_ratio : ℚ := 0
  friend_discount_ratio : ℚ := 1/5
  packaging_shipping_eur : ℚ := 0
  min_fee_eur : ℚ := 10
  purge_waste_g : ℚ := 0
deriving DecidableEq, Repr

/-- Python's built-in `round` to the nearest integer: round half to even
("banker's rounding").  This is the tie rule documented for Python 3 and
used by `round(x, n)` in `round_money` and in the `meta` dictionary. -/
def pyRoundInt (x : ℚ) : ℤ :=
  if Int.fract x < 1/2 then ⌊x⌋
  else if 1/2 < Int.fract x then ⌊x⌋ + 1
  else if ⌊x⌋ % 2 = 0 then ⌊x⌋ else ⌊x⌋ + 1

/-- Python's `round(x, d)`: round to `d` decimal digits, half to even. -/
def pyRound (d : ℕ) (x : ℚ) : ℚ := (pyRoundInt (x * 10 ^ d) : ℚ) / 10 ^ d

/-- `round_money` (preisrechner.py lines 45-46):
`return round(x + 1e-9, 2)`. -/
def round_money (x : ℚ) : ℚ := pyRound 2 (x + 1/1000000000)

/-- Line 50: `grams_total = inputs.filament_used_g + inputs.purge_waste_g`. -/
def grams_total (i : PricingInputs) : ℚ := i.filament_used_g + i.purge_waste_g

/-- Line 52: `material_eur = (grams_total / 1000.0) * inputs.filament_eur_per_kg`. -/
def material_eur (i : PricingInputs) : ℚ :=
  (grams_total i / 1000) * i.filament_eur_per_kg

/-- Line 53: `kwh = (inputs.avg_power_w * inputs.print_time_h) / 1000.0`. -/
def kwh (i : PricingInputs) : ℚ := (i.avg_power_w * i.print_time_h) / 1000

/-- Line 54: `energy_eur = kwh * inputs.electricity_eur_per_kwh`. -/
def energy_eur (i : PricingInputs) : ℚ := kwh i * i.electricity_eur_per_kwh

/-- Line 55: `machine_eur = inputs.print_time_h * inputs.depreciation_eur_per_h`. -/
def machine_eur (i : PricingInputs) : ℚ := i.print_time_h * i.depreciation_eur_per_h

/-- Line 56: `labor_eur = inputs.labor_hours * inputs.labor_rate_eur_per_h`. -/
def labor_eur (i : PricingInputs) : ℚ := i.labor_hours * i.labor_rate_eur_per_h

/-- Line 58: `consumables_eur = (material_eur + energy_eur) * inputs.consumables_ratio`. -/
def consumables_eur (i : PricingInputs) : ℚ :=
  (material_eur i + energy_eur i) * i.consumables_ratio

/-- Line 59: `risk_buffer_eur = (material_eur + energy_eur + machine_eur) * inputs.risk_ratio`. -/
def risk_buffer_eur (i : PricingInputs) : ℚ :=
  (material_eur i + energy_eur i + machine_eur i) * i.risk_ratio

/-- Line 61: `subtotal_before_markup = material_eur + energy_eur + machine_eur
+ labor_eur + consumables_eur + risk_buffer_eur`. -/
def subtotal_before_markup (i : PricingInputs) : ℚ :=
  material_eur i + energy_eur i + machine_eur i + labor_eur i +
    consumables_eur i + risk_buffer_eur i

/-- Line 62: `markup_eur = subtotal_before_markup * inputs.markup_ratio`. -/
def markup_eur (i : PricingInputs) : ℚ := subtotal_before_markup i * i.markup_ratio

/-- Line 63: `pre_discount_total = subtotal_before_markup + markup_eur`. -/
def pre_discount_total (i : PricingInputs) : ℚ :=
  subtotal_before_markup i + markup_eur i

/-- Line 64: `friend_discount_eur = pre_discount_total * inputs.friend_discount_ratio`. -/
def friend_discount_eur (i : PricingInputs) : ℚ :=
  pre_discount_total i * i.friend_discount_ratio

/-- Line 65: `total = pre_discount_total - friend_discount_eur + inputs.packaging_shipping_eur`. -/
def total (i : PricingInputs) : ℚ :=
  pre_discount_total i - friend_discount_eur i + i.packaging_shipping_eur

/-- Line 66: `final_total_eur = max(total, inputs.min_fee_eur)`. -/
def final_total_eur (i : PricingInputs) : ℚ := max (total i) i.min_fee_eur

/-- The `breakdown` dictionary built at lines 68-81: twelve labelled currency
values, each rounded with `round_money`.  The fields are listed in the
insertion order of the Python dict. -/
structure Breakdown where
  material : ℚ
  energie : ℚ
  maschine_verschleiss : ℚ
  arbeit : ℚ
  verbrauchsmaterial_puffer : ℚ
  risiko_puffer : ℚ
  zwischensumme : ℚ
  marge_aufschlag : ℚ
  summe_vor_rabatt : ℚ
  freundschaftsrabatt : ℚ
  verpackung_versand : ℚ
  empfohlener_preis : ℚ
deriving DecidableEq, Repr

/-- The key/value pairs of the `breakdown` dict, in its insertion order,
with the exact German label strings of lines 69-80. -/
def Breakdown.entries (b : Breakdown) : List (String × ℚ) :=
  [("Material", b.material),
   ("Energie", b.energie),
   ("Maschine/Verschleiß", b.maschine_verschleiss),
   ("Arbeit", b.arbeit),
   ("Verbrauchsmaterial-Puffer", b.verbrauchsmaterial_puffer),
   ("Risiko-Puffer", b.risiko_puffer),
   ("Zwischensumme", b.zwischensumme),
   ("Marge/Aufschlag", b.marge_aufschlag),
   ("Summe vor Rabatt", b.summe_vor_rabatt),
   ("Freundschaftsrabatt", b.freundschaftsrabatt),
   ("Verpackung/Versand", b.verpackung_versand),
   ("Empfohlener Preis", b.empfohlener_preis)]

/-- The `meta` dictionary built at lines 83-86: `kwh` rounded to 3 digits
and `filament_total_g` rounded to 1 digit, both with plain `round`. -/
structure CostMeta where
  kwh : ℚ
  filament_total_g : ℚ
deriving DecidableEq, Repr

/-- `compute_cost` (preisrechner.py lines 49-87): the whole pricing engine.
The let-chain of lines 50-66 is the sequence of definitions above; here the
function assembles the returned `(breakdown, meta)` pair of lines 68-87. -/
def compute_cost (i : PricingInputs) : Breakdown × CostMeta :=
  ({ material := round_money (material_eur i),
     energie := round_money (energy_eur i),
     maschine_verschleiss := round_money (machine_eur i),
     arbeit := round_money (labor_eur i),
     verbrauchsmaterial_puffer := round_money (consumables_eur i),
     risiko_puffer := round_money (risk_buffer_eur i),
     zwischensumme := round_money (subtotal_before_markup i),
     marge_aufschlag := round_money (markup_eur i),
     summe_vor_rabatt := round_money (pre_discount_total i),
     freundschaftsrabatt := round_money (friend_discount_eur i),
     verpackung_versand := round_money i.packaging_shipping_eur,
     empfohlener_preis := round_money (final_total_eur i) },
   { kwh := pyRound 3 (kwh i),
     filament_total_g := pyRound 1 (grams_total i) })

/-- The concrete scenario of spec §8: 100 g filament, 6 h print, all
remaining fields at the stated (default) values. -/
def scenario : PricingInputs :=
  { filament_used_g := 100,
    print_time_h := 6,
    filament_eur_per_kg := 22,
    electricity_eur_per_kwh := 1/4,
    avg_power_w := 80,
    depreciation_eur_per_h := 1/2,
    consumables_ratio := 1/20,
    labor_hours := 1,
    labor_rate_eur_per_h := 30,
    risk_ratio := 1/10,
    markup_ratio := 0,
    friend_discount_ratio := 1/5,
    packaging_shipping_eur := 0,
    min_fee_eur := 10,
    purge_waste_g := 0 }

/-- The pricing scenario of spec §8 with a full friend discount
(`friend_discount_ratio = 1.0`), used for the price-floor activation test. -/
def scenarioFullDiscount : PricingInputs := { scenario with friend_discount_ratio := 1 }

/-- All-zero inputs except a price floor of 10.004 €, a floor that is not a
whole number of cents. -/
def feeFloorCex : PricingInputs :=
  { filament_used_g := 0, print_time_h := 0, filament_eur_per_kg := 0,
    electricity_eur_per_kwh := 0, avg_power_w := 0, depreciation_eur_per_h := 0,
    consumables_ratio := 0, labor_hours := 0, labor_rate_eur_per_h := 0,
    risk_ratio := 0, markup_ratio := 0, friend_discount_ratio := 0,
    packaging_shipping_eur := 0, min_fee_eur := 10.004, purge_waste_g := 0 }

/-- The §8 scenario with a negative filament price of −22 €/kg. -/
def cheapScenario : PricingInputs := { scenario with filament_eur_per_kg := -22 }

/-- `cheapScenario` with the filament mass raised from 100 g to 200 g. -/
def cheapScenarioMore : PricingInputs := { cheapScenario with filament_used_g := 200 }

/-- All fifteen input fields are non-negative. -/
def PricingInputs.NonNeg (i : PricingInputs) : Prop :=
  0 ≤ i.filament_used_g ∧ 0 ≤ i.print_time_h ∧ 0 ≤ i.filament_eur_per_kg ∧
    0 ≤ i.electricity_eur_per_kwh ∧ 0 ≤ i.avg_power_w ∧
    0 ≤ i.depreciation_eur_per_h ∧ 0 ≤ i.consumables_ratio ∧ 0 ≤ i.labor_hours ∧
    0 ≤ i.labor_rate_eur_per_h ∧ 0 ≤ i.risk_ratio ∧ 0 ≤ i.markup_ratio ∧
    0 ≤ i.friend_discount_ratio ∧ 0 ≤ i.packaging_shipping_eur ∧
    0 ≤ i.min_fee_eur ∧ 0 ≤ i.purge_waste_g

instance (i : PricingInputs) : Decidable i.NonNeg := by
  unfold PricingInputs.NonNeg; infer_instance

namespace SpecAlg

/-- Spec §4.1 step 1: `grams_total = filament_used_g + purge_waste_g`. -/
def grams_total (i : PricingInputs) : ℚ := i.filament_used_g + i.purge_waste_g

/-- Spec §4.1 step 2: `material = (grams_total / 1000) * filament_eur_per_kg`. -/
def material (i : PricingInputs) : ℚ := (grams_total i / 1000) * i.filament_eur_per_kg

/-- Spec §4.1 step 3: `kwh = (avg_power_w * print_time_h) / 1000`. -/
def kwh (i : PricingInputs) : ℚ := (i.avg_power_w * i.print_time_h) / 1000

/-- Spec §4.1 step 4: `energy = kwh * electricity_eur_per_kwh`. -/
def energy (i : PricingInputs) : ℚ := kwh i * i.electricity_eur_per_kwh

/-- Spec §4.1 step 5: `machine = print_time_h * depreciation_eur_per_h`. -/
def machine (i : PricingInputs) : ℚ := i.print_time_h * i.depreciation_eur_per_h

/-- Spec §4.1 step 6: `labor = labor_hours * labor_rate_eur_per_h`. -/
def labor (i : PricingInputs) : ℚ := i.labor_hours * i.labor_rate_eur_per_h

/-- Spec §4.1 step 7: `consumables = (material + energy) * consumables_ratio`. -/
def consumables (i : PricingInputs) : ℚ := (material i + energy i) * i.consumables_ratio

/-- Spec §4.1 step 8: `risk = (material + energy + machine) * risk_ratio`. -/
def risk (i : PricingInputs) : ℚ := (material i + energy i + machine i) * i.risk_ratio

/-- Spec §4.1 step 9: `subtotal` is the sum of the six cost lines. -/
def subtotal (i : PricingInputs) : ℚ :=
  material i + energy i + machine i + labor i + consumables i + risk i

/-- Spec §4.1 step 10: `markup = subtotal * markup_ratio`. -/
def markup (i : PricingInputs) : ℚ := subtotal i * i.markup_ratio

/-- Spec §4.1 step 11: `pre_discount_total = subtotal + markup`. -/
def pre_discount_total (i : PricingInputs) : ℚ := subtotal i + markup i

/-- Spec §4.1 step 12: `friend_discount = pre_discount_total * friend_discount_ratio`. -/
def friend_discount (i : PricingInputs) : ℚ :=
  pre_discount_total i * i.friend_discount_ratio

/-- Spec §4.1 step 13: `total = pre_discount_total - friend_discount + packaging_shipping_eur`. -/
def total (i : PricingInputs) : ℚ :=
  pre_discount_total i - friend_discount i + i.packaging_shipping_eur

/-- Spec §4.1 step 14: `final_total = max(total, min_fee_eur)`. -/
def final_total (i : PricingInputs) : ℚ := max (total i) i.min_fee_eur

end SpecAlg

/-- Round-half-away-from-zero to the nearest integer: the reference tie rule
that spec §9 says `round_money` realises.  Written from the spec's words, to
be compared against the code's `pyRoundInt`. -/
def roundHalfAwayInt (x : ℚ) : ℤ :=
  if 0 ≤ x then ⌊x + 1/2⌋ else -⌊-x + 1/2⌋

/-- Round-half-away-from-zero to `d` decimal digits, from the spec's words. -/
def roundHalfAway (d : ℕ) (x : ℚ) : ℚ := (roundHalfAwayInt (x * 10 ^ d) : ℚ) / 10 ^ d

theorem floor_le_pyRoundInt (x : ℚ) : ⌊x⌋ ≤ pyRoundInt x := by
  unfold pyRoundInt; split_ifs <;> omega

theorem pyRoundInt_le_floor_add_one (x : ℚ) : pyRoundInt x ≤ ⌊x⌋ + 1 := by
  unfold pyRoundInt; split_ifs <;> omega

theorem pyRoundInt_mono {x y : ℚ} (h : x ≤ y) : pyRoundInt x ≤ pyRoundInt y := by
  rcases lt_or_le ⌊x⌋ ⌊y⌋ with hf | hf
  · calc pyRoundInt x ≤ ⌊x⌋ + 1 := pyRoundInt_le_floor_add_one x
      _ ≤ ⌊y⌋ := by omega
      _ ≤ pyRoundInt y := floor_le_pyRoundInt y
  · have hfe : ⌊x⌋ = ⌊y⌋ := le_antisymm (Int.floor_le_floor h) hf
    have hfr : Int.fract x ≤ Int.fract y := by
      unfold Int.fract
      rw [hfe]
      exact sub_le_sub_right h _
    unfold pyRoundInt
    rw [hfe]
    split_ifs <;> first | omega | linarith

theorem pyRoundInt_nonneg {x : ℚ} (h : 0 ≤ x) : 0 ≤ pyRoundInt x := by
  have h0 : (0 : ℤ) ≤ ⌊x⌋ := Int.floor_nonneg.mpr h
  unfold pyRoundInt; split_ifs <;> omega

theorem pyRound_mono (d : ℕ) {x y : ℚ} (h : x ≤ y) : pyRound d x ≤ pyRound d y := by
  unfold pyRound
  have hp : (0 : ℚ) < 10 ^ d := by positivity
  have hr : pyRoundInt (x * 10 ^ d) ≤ pyRoundInt (y * 10 ^ d) :=
    pyRoundInt_mono (mul_le_mul_of_nonneg_right h hp.le)
  exact (div_le_div_iff_of_pos_right hp).mpr (by exact_mod_cast hr)

theorem pyRound_nonneg (d : ℕ) {x : ℚ} (h : 0 ≤ x) : 0 ≤ pyRound d x := by
  unfold pyRound
  have hp : (0 : ℚ) < 10 ^ d := by positivity
  have hr : (0 : ℤ) ≤ pyRoundInt (x * 10 ^ d) :=
    pyRoundInt_nonneg (mul_nonneg h hp.le)
  exact div_nonneg (by exact_mod_cast hr) hp.le

theorem pyRoundInt_eq_roundHalfAwayInt {y : ℚ} (h : Int.fract y ≠ 1/2) :
    pyRoundInt y = roundHalfAwayInt y := by
  have hf0 : 0 ≤ Int.fract y := Int.fract_nonneg y
  have hf1 : Int.fract y < 1 := Int.fract_lt_one y
  have hyf : (⌊y⌋ : ℚ) + Int.fract y = y := Int.floor_add_fract y
  rcases lt_or_gt_of_ne h with hf | hf
  · have h1 : ⌊y + 1/2⌋ = ⌊y⌋ := by
      rw [Int.floor_eq_iff]
      constructor
      · linarith
      · linarith
    have h2 : ⌊-y + 1/2⌋ = -⌊y⌋ := by
      rw [Int.floor_eq_iff]
      constructor
      · push_cast; linarith
      · push_cast; linarith
    unfold pyRoundInt roundHalfAwayInt
    rw [if_pos hf]
    split_ifs with h0
    · rw [h1]
    · rw [h2]; omega
  · have h1 : ⌊y + 1/2⌋ = ⌊y⌋ + 1 := by
      rw [Int.floor_eq_iff]
      constructor
      · push_cast; linarith
      · push_cast; linarith
    have h2 : ⌊-y + 1/2⌋ = -⌊y⌋ - 1 := by
      rw [Int.floor_eq_iff]
      constructor
      · push_cast; linarith
      · push_cast; linarith
    unfold pyRoundInt roundHalfAwayInt
    rw [if_neg (by linarith), if_pos hf]
    split_ifs with h0
    · rw [h1]
    · rw [h2]; omega

theorem round_money_eval (x : ℚ) :
    round_money x = (pyRoundInt ((x + 1/1000000000) * 100) : ℚ) / 100 := by
  unfold round_money pyRound
  norm_num

theorem roundHalfAway_two (x : ℚ) :
    roundHalfAway 2 x = (roundHalfAwayInt (x * 100) : ℚ) / 100 := by
  unfold roundHalfAway
  norm_num

theorem round_money_mono {x y : ℚ} (h : x ≤ y) : round_money x ≤ round_money y :=
  pyRound_mono 2 (by linarith)

theorem round_money_nonneg {x : ℚ} (h : 0 ≤ x) : 0 ≤ round_money x :=
  pyRound_nonneg 2 (by linarith)

/-- C1 (counterexample): on the §8 scenario the stored Recommended Price is
not 28.78.  The code rounds the full-precision pre-floor total 28.7744 once,
which gives 28.77; 28.78 is what re-summing the already rounded lines
35.97 − 7.19 would give. -/
theorem scenario_price_ne_spec :
    (compute_cost scenario).1.empfohlener_preis ≠ 28.78 := by
  norm_num [scenario, compute_cost, final_total_eur, total, pre_discount_total,
    friend_discount_eur, markup_eur, subtotal_before_markup, consumables_eur,
    risk_buffer_eur, material_eur, energy_eur, kwh, machine_eur, labor_eur,
    grams_total, round_money, pyRound, pyRoundInt, Int.fract, max_def]

/-- C1 (amended): the §8 scenario yields exactly the claimed breakdown and
meta values except the final line: Material=2.20, Energy=0.12, Machine=3.00,
Labor=30.00, Consumables Buffer=0.12, Risk Buffer=0.53, Subtotal=35.97,
Markup=0.00, Pre-Discount Total=35.97, Friend Discount=7.19,
Packaging/Shipping=0.00, Recommended Price=28.77, and meta kwh=0.48. -/
theorem scenario_breakdown_exact :
    compute_cost scenario =
      ({ material := 2.20, energie := 0.12, maschine_verschleiss := 3,
         arbeit := 30, verbrauchsmaterial_puffer := 0.12,
         risiko_puffer := 0.53, zwischensumme := 35.97, marge_aufschlag := 0,
         summe_vor_rabatt := 35.97, freundschaftsrabatt := 7.19,
         verpackung_versand := 0, empfohlener_preis := 28.77 },
       { kwh := 0.48, filament_total_g := 100 }) := by
  norm_num [scenario, compute_cost, final_total_eur, total, pre_discount_total,
    friend_discount_eur, markup_eur, subtotal_before_markup, consumables_eur,
    risk_buffer_eur, material_eur, energy_eur, kwh, machine_eur, labor_eur,
    grams_total, round_money, pyRound, pyRoundInt, Int.fract, max_def,
    Prod.ext_iff, Breakdown.mk.injEq, CostMeta.mk.injEq]

/-- C2 (counterexample): with every field zero except `min_fee_eur = 10.004`
(all fields non-negative) the floored price is itself rounded to two
decimals, so the stored Recommended Price 10.00 is strictly below
`min_fee_eur`. -/
theorem fee_floor_rounding_cex :
    feeFloorCex.NonNeg ∧
      (compute_cost feeFloorCex).1.empfohlener_preis < feeFloorCex.min_fee_eur :=
  ⟨by norm_num [feeFloorCex, PricingInputs.NonNeg],
   by norm_num [feeFloorCex, compute_cost, final_total_eur, total,
     pre_discount_total, friend_discount_eur, markup_eur,
     subtotal_before_markup, consumables_eur, risk_buffer_eur, material_eur,
     energy_eur, kwh, machine_eur, labor_eur, grams_total, round_money,
     pyRound, pyRoundInt, Int.fract, max_def]⟩

/-- C2 (amended): for every record with all fields non-negative the
Recommended Price line is at least `round_money min_fee_eur`, the
two-decimal rounding of the floor (equal to `min_fee_eur` itself whenever
the floor is a whole number of cents). -/
theorem recommended_ge_rounded_min_fee (i : PricingInputs) (_h : i.NonNeg) :
    round_money i.min_fee_eur ≤ (compute_cost i).1.empfohlener_preis :=
  round_money_mono (le_max_right _ _)

/-- C2 (witness): the amended floor bound at the §8 scenario. -/
theorem recommended_ge_rounded_min_fee_witness :
    scenario.NonNeg ∧
      round_money scenario.min_fee_eur ≤ (compute_cost scenario).1.empfohlener_preis :=
  ⟨by norm_num [scenario, PricingInputs.NonNeg],
   recommended_ge_rounded_min_fee scenario
     (by norm_num [scenario, PricingInputs.NonNeg])⟩

/-- C3: `compute_cost` derives its breakdown exactly along the 14-step
order of spec §4.1: every entry is the `round_money` image of the
corresponding `SpecAlg` quantity, each of which is defined only from
previously derived quantities. -/
theorem compute_cost_follows_spec_algorithm (i : PricingInputs) :
    (compute_cost i).1 =
      { material := round_money (SpecAlg.material i),
        energie := round_money (SpecAlg.energy i),
        maschine_verschleiss := round_money (SpecAlg.machine i),
        arbeit := round_money (SpecAlg.labor i),
        verbrauchsmaterial_puffer := round_money (SpecAlg.consumables i),
        risiko_puffer := round_money (SpecAlg.risk i),
        zwischensumme := round_money (SpecAlg.subtotal i),
        marge_aufschlag := round_money (SpecAlg.markup i),
        summe_vor_rabatt := round_money (SpecAlg.pre_discount_total i),
        freundschaftsrabatt := round_money (SpecAlg.friend_discount i),
        verpackung_versand := round_money i.packaging_shipping_eur,
        empfohlener_preis := round_money (SpecAlg.final_total i) } := rfl

/-- C4 (counterexample): the exact boundary value −0.125 is not rounded
away from zero by `round_money`: adding the positive epsilon moves the tie
toward zero for negative values, so `round_money (-0.125) = -0.12`, while
half-away-from-zero rounding of −0.125 at two decimals gives −0.13. -/
theorem round_money_neg_boundary_cex :
    round_money (-0.125) = -0.12 ∧ roundHalfAway 2 (-0.125) = -0.13 := by
  norm_num [round_money, pyRound, pyRoundInt, roundHalfAway, roundHalfAwayInt,
    Int.fract]

/-- C4 (amended): `round_money x` equals round-half-away-from-zero of
`x + 1e-9` at two decimals whenever `(x + 1e-9)·100` is not an exact tie,
and every non-negative exact .xx5 boundary value rounds away from zero;
negative boundary values round toward zero instead, because the epsilon is
added rather than applied away from zero. -/
theorem round_money_halfaway (x : ℚ) :
    (Int.fract ((x + 1/1000000000) * 100) ≠ 1/2 →
      round_money x = roundHalfAway 2 (x + 1/1000000000)) ∧
    (0 ≤ x → Int.fract (x * 100) = 1/2 → round_money x = roundHalfAway 2 x) := by
  constructor
  · intro h
    rw [round_money_eval, roundHalfAway_two, pyRoundInt_eq_roundHalfAwayInt h]
  · intro hx h
    rw [round_money_eval, roundHalfAway_two]
    have hn : (⌊x * 100⌋ : ℚ) + 1/2 = x * 100 := by
      have h0 := Int.floor_add_fract (x * 100)
      rw [h] at h0
      exact h0
    have hexp : (x + 1/1000000000) * 100 = x * 100 + 1/10000000 := by ring
    have hA : ⌊(x + 1/1000000000) * 100⌋ = ⌊x * 100⌋ := by
      rw [Int.floor_eq_iff]
      constructor
      · linarith
      · linarith
    have hfr : Int.fract ((x + 1/1000000000) * 100) = 1/2 + 1/10000000 := by
      unfold Int.fract
      rw [hA]
      linarith
    have hpy : pyRoundInt ((x + 1/1000000000) * 100) = ⌊x * 100⌋ + 1 := by
      unfold pyRoundInt
      rw [hfr, hA, if_neg (by norm_num), if_pos (by norm_num)]
    have hha : roundHalfAwayInt (x * 100) = ⌊x * 100⌋ + 1 := by
      unfold roundHalfAwayInt
      rw [if_pos (mul_nonneg hx (by norm_num : (0:ℚ) ≤ 100)), Int.floor_eq_iff]
      constructor
      · push_cast
        linarith
      · push_cast
        linarith
    rw [hpy, hha]

/-- C4 (witness): both parts of the amended rounding law at x = 0.125. -/
theorem round_money_halfaway_witness :
    round_money (1/8) = roundHalfAway 2 (1/8 + 1/1000000000) ∧
    round_money (1/8) = roundHalfAway 2 (1/8) :=
  ⟨(round_money_halfaway (1/8)).1 (by norm_num [Int.fract]),
   (round_money_halfaway (1/8)).2 (by norm_num) (by norm_num [Int.fract])⟩

/-- C5: for a record with all fields non-negative every stored breakdown
value is non-negative, the Friend Discount line included (its minus sign is
applied only at display time). -/
theorem breakdown_nonneg (i : PricingInputs) (h : i.NonNeg) :
    0 ≤ (compute_cost i).1.material ∧ 0 ≤ (compute_cost i).1.energie ∧
    0 ≤ (compute_cost i).1.maschine_verschleiss ∧ 0 ≤ (compute_cost i).1.arbeit ∧
    0 ≤ (compute_cost i).1.verbrauchsmaterial_puffer ∧
    0 ≤ (compute_cost i).1.risiko_puffer ∧
    0 ≤ (compute_cost i).1.zwischensumme ∧
    0 ≤ (compute_cost i).1.marge_aufschlag ∧
    0 ≤ (compute_cost i).1.summe_vor_rabatt ∧
    0 ≤ (compute_cost i).1.freundschaftsrabatt ∧
    0 ≤ (compute_cost i).1.verpackung_versand ∧
    0 ≤ (compute_cost i).1.empfohlener_preis := by
  obtain ⟨h1, h2, h3, h4, h5, h6, h7, h8, h9, h10, h11, h12, h13, h14, h15⟩ := h
  have hg : 0 ≤ grams_total i := add_nonneg h1 h15
  have hmat : 0 ≤ material_eur i := mul_nonneg (div_nonneg hg (by norm_num)) h3
  have hkwh : 0 ≤ kwh i := div_nonneg (mul_nonneg h5 h2) (by norm_num)
  have hen : 0 ≤ energy_eur i := mul_nonneg hkwh h4
  have hmach : 0 ≤ machine_eur i := mul_nonneg h2 h6
  have hlab : 0 ≤ labor_eur i := mul_nonneg h8 h9
  have hcons : 0 ≤ consumables_eur i := mul_nonneg (add_nonneg hmat hen) h7
  have hrisk : 0 ≤ risk_buffer_eur i :=
    mul_nonneg (add_nonneg (add_nonneg hmat hen) hmach) h10
  have hsub : 0 ≤ subtotal_before_markup i :=
    add_nonneg (add_nonneg (add_nonneg (add_nonneg (add_nonneg hmat hen) hmach)
      hlab) hcons) hrisk
  have hmar : 0 ≤ markup_eur i := mul_nonneg hsub h11
  have hpre : 0 ≤ pre_discount_total i := add_nonneg hsub hmar
  have hfr : 0 ≤ friend_discount_eur i := mul_nonneg hpre h12
  have hfin : 0 ≤ final_total_eur i := le_trans h14 (le_max_right _ _)
  exact ⟨round_money_nonneg hmat, round_money_nonneg hen, round_money_nonneg hmach,
    round_money_nonneg hlab, round_money_nonneg hcons, round_money_nonneg hrisk,
    round_money_nonneg hsub, round_money_nonneg hmar, round_money_nonneg hpre,
    round_money_nonneg hfr, round_money_nonneg h13, round_money_nonneg hfin⟩

/-- C5 (witness): non-negativity of the twelve lines at the §8 scenario. -/
theorem breakdown_nonneg_witness :
    scenario.NonNeg ∧
      (0 ≤ (compute_cost scenario).1.material ∧
       0 ≤ (compute_cost scenario).1.energie ∧
       0 ≤ (compute_cost scenario).1.maschine_verschleiss ∧
       0 ≤ (compute_cost scenario).1.arbeit ∧
       0 ≤ (compute_cost scenario).1.verbrauchsmaterial_puffer ∧
       0 ≤ (compute_cost scenario).1.risiko_puffer ∧
       0 ≤ (compute_cost scenario).1.zwischensumme ∧
       0 ≤ (compute_cost scenario).1.marge_aufschlag ∧
       0 ≤ (compute_cost scenario).1.summe_vor_rabatt ∧
       0 ≤ (compute_cost scenario).1.freundschaftsrabatt ∧
       0 ≤ (compute_cost scenario).1.verpackung_versand ∧
       0 ≤ (compute_cost scenario).1.empfohlener_preis) :=
  ⟨by norm_num [scenario, PricingInputs.NonNeg],
   breakdown_nonneg scenario (by norm_num [scenario, PricingInputs.NonNeg])⟩

/-- C6: the meta mapping satisfies
`kwh = round(avg_power_w * print_time_h / 1000, 3)` and
`filament_total_g = round(filament_used_g + purge_waste_g, 1)` with the
plain built-in `round` and no epsilon added. -/
theorem meta_rounding (i : PricingInputs) :
    (compute_cost i).2.kwh = pyRound 3 (i.avg_power_w * i.print_time_h / 1000) ∧
    (compute_cost i).2.filament_total_g =
      pyRound 1 (i.filament_used_g + i.purge_waste_g) :=
  ⟨rfl, rfl⟩

/-- C7: `compute_cost` is total: for every record, zero and negative field
values included, it returns a defined breakdown/meta pair whose breakdown
carries the full twelve labelled entries — the function has no validation
and no error branch. -/
theorem compute_cost_total_defined (i : PricingInputs) :
    ∃ b m, compute_cost i = (b, m) ∧
      b.entries.map Prod.fst =
        ["Material", "Energie", "Maschine/Verschleiß", "Arbeit",
         "Verbrauchsmaterial-Puffer", "Risiko-Puffer", "Zwischensumme",
         "Marge/Aufschlag", "Summe vor Rabatt", "Freundschaftsrabatt",
         "Verpackung/Versand", "Empfohlener Preis"] :=
  ⟨_, _, rfl, rfl⟩

/-- C8 (counterexample): with a negative filament price (−22 €/kg, all other
fields as in the §8 scenario) raising `filament_used_g` from 100 g to 200 g
strictly lowers the Material line, so the claimed monotonicity fails without
a sign restriction on the inputs. -/
theorem monotone_filament_cex :
    cheapScenario.filament_used_g ≤ cheapScenarioMore.filament_used_g ∧
      (compute_cost cheapScenarioMore).1.material <
        (compute_cost cheapScenario).1.material := by
  constructor
  · norm_num [cheapScenario, cheapScenarioMore, scenario]
  · show round_money (material_eur cheapScenarioMore) <
      round_money (material_eur cheapScenario)
    norm_num [cheapScenario, cheapScenarioMore, scenario, material_eur,
      grams_total, round_money, pyRound, pyRoundInt, Int.fract]

/-- C8 (amended): increasing `filament_used_g` while holding the other
fields fixed never decreases the Material line, the Subtotal line or the
pre-floor total, provided `filament_eur_per_kg`, `consumables_ratio`,
`risk_ratio` and `markup_ratio` are non-negative and
`friend_discount_ratio ≤ 1`. -/
theorem monotone_filament (i : PricingInputs) (g g' : ℚ) (hg : g ≤ g')
    (hk : 0 ≤ i.filament_eur_per_kg) (hc : 0 ≤ i.consumables_ratio)
    (hr : 0 ≤ i.risk_ratio) (hm : 0 ≤ i.markup_ratio)
    (hf : i.friend_discount_ratio ≤ 1) :
    (compute_cost { i with filament_used_g := g }).1.material ≤
      (compute_cost { i with filament_used_g := g' }).1.material ∧
    (compute_cost { i with filament_used_g := g }).1.zwischensumme ≤
      (compute_cost { i with filament_used_g := g' }).1.zwischensumme ∧
    total { i with filament_used_g := g } ≤
      total { i with filament_used_g := g' } := by
  have hd : 0 ≤ (g' - g) * i.filament_eur_per_kg / 1000 :=
    div_nonneg (mul_nonneg (by linarith) hk) (by norm_num)
  have hmat : material_eur { i with filament_used_g := g' } -
      material_eur { i with filament_used_g := g } =
      (g' - g) * i.filament_eur_per_kg / 1000 := by
    simp only [material_eur, grams_total]
    ring
  have hsub : subtotal_before_markup { i with filament_used_g := g' } -
      subtotal_before_markup { i with filament_used_g := g } =
      (g' - g) * i.filament_eur_per_kg / 1000 *
        (1 + i.consumables_ratio + i.risk_ratio) := by
    simp only [subtotal_before_markup, consumables_eur, risk_buffer_eur,
      material_eur, energy_eur, kwh, machine_eur, labor_eur, grams_total]
    ring
  have htot : total { i with filament_used_g := g' } -
      total { i with filament_used_g := g } =
      (g' - g) * i.filament_eur_per_kg / 1000 *
        (1 + i.consumables_ratio + i.risk_ratio) * (1 + i.markup_ratio) *
        (1 - i.friend_discount_ratio) := by
    simp only [total, pre_discount_total, friend_discount_eur, markup_eur,
      subtotal_before_markup, consumables_eur, risk_buffer_eur, material_eur,
      energy_eur, kwh, machine_eur, labor_eur, grams_total]
    ring
  have hq : 0 ≤ (g' - g) * i.filament_eur_per_kg / 1000 *
      (1 + i.consumables_ratio + i.risk_ratio) :=
    mul_nonneg hd (by linarith)
  refine ⟨?_, ?_, ?_⟩
  · show round_money (material_eur { i with filament_used_g := g }) ≤
      round_money (material_eur { i with filament_used_g := g' })
    exact round_money_mono (by linarith)
  · show round_money (subtotal_before_markup { i with filament_used_g := g }) ≤
      round_money (subtotal_before_markup { i with filament_used_g := g' })
    exact round_money_mono (by linarith)
  · have hstep : 0 ≤ (g' - g) * i.filament_eur_per_kg / 1000 *
        (1 + i.consumables_ratio + i.risk_ratio) * (1 + i.markup_ratio) *
        (1 - i.friend_discount_ratio) :=
      mul_nonneg (mul_nonneg hq (by linarith)) (by linarith)
    linarith

/-- C8 (witness): the amended monotonicity at the §8 scenario, comparing
100 g against 200 g of filament. -/
theorem monotone_filament_witness :
    (compute_cost { scenario with filament_used_g := (100 : ℚ) }).1.material ≤
      (compute_cost { scenario with filament_used_g := (200 : ℚ) }).1.material ∧
    (compute_cost { scenario with filament_used_g := (100 : ℚ) }).1.zwischensumme ≤
      (compute_cost { scenario with filament_used_g := (200 : ℚ) }).1.zwischensumme ∧
    total { scenario with filament_used_g := (100 : ℚ) } ≤
      total { scenario with filament_used_g := (200 : ℚ) } :=
  monotone_filament scenario 100 200 (by norm_num) (by norm_num [scenario])
    (by norm_num [scenario]) (by norm_num [scenario]) (by norm_num [scenario])
    (by norm_num [scenario])

/-- C9: in the §8 scenario with a full friend discount
(`friend_discount_ratio = 1.0`) the pre-floor total is ≤ 0 and the stored
Recommended Price equals `min_fee_eur = 10.0` exactly. -/
theorem full_discount_floor :
    total scenarioFullDiscount ≤ 0 ∧
      (compute_cost scenarioFullDiscount).1.empfohlener_preis = 10 := by
  norm_num [scenarioFullDiscount, scenario, compute_cost, final_total_eur,
    total, pre_discount_total, friend_discount_eur, markup_eur,
    subtotal_before_markup, consumables_eur, risk_buffer_eur, material_eur,
    energy_eur, kwh, machine_eur, labor_eur, grams_total, round_money,
    pyRound, pyRoundInt, Int.fract, max_def]

/-- C10: changing only `min_fee_eur` leaves the eleven breakdown lines other
than the Recommended Price, and the whole meta mapping, unchanged: the floor
input influences nothing but the final floored price. -/
theorem min_fee_only_affects_final (i : PricingInputs) (fee : ℚ) :
    ((compute_cost { i with min_fee_eur := fee }).1.material =
        (compute_cost i).1.material ∧
     (compute_cost { i with min_fee_eur := fee }).1.energie =
        (compute_cost i).1.energie ∧
     (compute_cost { i with min_fee_eur := fee }).1.maschine_verschleiss =
        (compute_cost i).1.maschine_verschleiss ∧
     (compute_cost { i with min_fee_eur := fee }).1.arbeit =
        (compute_cost i).1.arbeit ∧
     (compute_cost { i with min_fee_eur := fee }).1.verbrauchsmaterial_puffer =
        (compute_cost i).1.verbrauchsmaterial_puffer ∧
     (compute_cost { i with min_fee_eur := fee }).1.risiko_puffer =
        (compute_cost i).1.risiko_puffer ∧
     (compute_cost { i with min_fee_eur := fee }).1.zwischensumme =
        (compute_cost i).1.zwischensumme ∧
     (compute_cost { i with min_fee_eur := fee }).1.marge_aufschlag =
        (compute_cost i).1.marge_aufschlag ∧
     (compute_cost { i with min_fee_eur := fee }).1.summe_vor_rabatt =
        (compute_cost i).1.summe_vor_rabatt ∧
     (compute_cost { i with min_fee_eur := fee }).1.freundschaftsrabatt =
        (compute_cost i).1.freundschaftsrabatt ∧
     (compute_cost { i with min_fee_eur := fee }).1.verpackung_versand =
        (compute_cost i).1.verpackung_versand) ∧
    (compute_cost { i with min_fee_eur := fee }).2 = (compute_cost i).2 :=
  ⟨⟨rfl, rfl, rfl, rfl, rfl, rfl, rfl, rfl, rfl, rfl, rfl⟩, rfl⟩

end Preisrechner
